import Mathlib

/-!
Verification of the FreshCast query router and inventory/material aggregator.

The router (`src/router.py`) is embedded as pure functions over `List Char`
(strings are ASCII in all routed queries); Python floats that only occur as
literal confidence values are embedded as the rationals those literals denote;
pandas/numpy `.round()` (round half to even) is embedded as `roundHalfEven`.
Python `re.search` over the three fixed regexes of the router is embedded by
explicit scanning functions with exact existence semantics (`.` does not match
a newline, a search may start at any position).
-/

set_option maxHeartbeats 1000000

namespace FreshCast

/-- Shorthand: the character list of a string literal. -/
def cs (s : String) : List Char := s.toList

/-- ASCII lower-casing of one character (Python `str.lower` on ASCII input). -/
def lowChar (c : Char) : Char :=
  if 65 ≤ c.toNat ∧ c.toNat ≤ 90 then Char.ofNat (c.toNat + 32) else c

/-- ASCII upper-casing of one character (Python `str.upper` on ASCII input). -/
def upChar (c : Char) : Char :=
  if 97 ≤ c.toNat ∧ c.toNat ≤ 122 then Char.ofNat (c.toNat - 32) else c

/-- Lower-casing of a whole string (`query.lower()`). -/
def lowerL (l : List Char) : List Char := l.map lowChar

/-- `needle` occurs at the start of `hay`. -/
def startsWithL : List Char → List Char → Bool
  | [], _ => true
  | _ :: _, [] => false
  | p :: ps, c :: chs => p == c && startsWithL ps chs

/-- `needle` occurs somewhere inside `hay` (Python `needle in hay`). -/
def substr (needle : List Char) : List Char → Bool
  | [] => startsWithL needle []
  | c :: rest => startsWithL needle (c :: rest) || substr needle rest

/-- `re.search` scan step: some pattern of `pats` matches at some position of
the input, and `cont` accepts the remainder after the matched pattern.  Start
positions are unrestricted (this models the leading scan of `re.search`). -/
def scanAny (pats : List (List Char)) (cont : List Char → Bool) : List Char → Bool
  | [] => pats.any fun p => startsWithL p [] && cont (List.drop p.length [])
  | c :: rest =>
    (pats.any fun p => startsWithL p (c :: rest) && cont (List.drop p.length (c :: rest))) ||
      scanAny pats cont rest

/-- Like `scanAny`, but the characters scanned over may not contain a newline:
this models a `.*` gap inside a Python regex (`.` does not match `\n`). -/
def scanNoNL (pats : List (List Char)) (cont : List Char → Bool) : List Char → Bool
  | [] => pats.any fun p => startsWithL p [] && cont (List.drop p.length [])
  | c :: rest =>
    (pats.any fun p => startsWithL p (c :: rest) && cont (List.drop p.length (c :: rest))) ||
      (c != '\n' && scanNoNL pats cont rest)

/-- Pattern 1 of `classify_query`:
`re.search(r'how (many|much).*?(croissant|baguette|sourdough|sandwich|donut|muffin)', q)`. -/
def pattern1 (q : List Char) : Bool :=
  scanAny [cs "how many", cs "how much"]
    (scanNoNL [cs "croissant", cs "baguette", cs "sourdough", cs "sandwich",
               cs "donut", cs "muffin"]
      (fun _ => true)) q

/-- Pattern 2 of `classify_query`: `re.search(r'what.*(do|should).*(we|i).*need', q)`. -/
def pattern2 (q : List Char) : Bool :=
  scanAny [cs "what"]
    (scanNoNL [cs "do", cs "should"]
      (scanNoNL [cs "we", cs "i"]
        (scanNoNL [cs "need"] (fun _ => true)))) q

/-- The ingredient-word test inside pattern 2's branch:
`any(word in q for word in ['ingredient', 'material', 'flour', 'eggs'])`. -/
def ingredient_hit (q : List Char) : Bool :=
  [cs "ingredient", cs "material", cs "flour", cs "eggs"].any fun w => substr w q

/-- Pattern 3 of `classify_query`:
`any(word in q for word in ['production', 'inventory', 'stock'])`. -/
def pattern3 (q : List Char) : Bool :=
  [cs "production", cs "inventory", cs "stock"].any fun w => substr w q

/-- Pattern 4 of `classify_query`: `re.search(r'where.*(buy|find|purchase|get)', q)`. -/
def pattern4 (q : List Char) : Bool :=
  scanAny [cs "where"]
    (scanNoNL [cs "buy", cs "find", cs "purchase", cs "get"] (fun _ => true)) q

/-- Pattern 5 of `classify_query`: `q.startswith('should i') or 'recommend' in q`. -/
def pattern5 (q : List Char) : Bool :=
  startsWithL (cs "should i") q || substr (cs "recommend") q

/-- `self.ml_keywords`, flattened over its six categories in source order
(the category keys play no role in the scoring loop). -/
def ml_keywords : List (List Char) :=
  [cs "forecast", cs "predict", cs "prediction", cs "expect", cs "anticipated",
   cs "demand", cs "need", cs "sales", cs "sell", cs "sold",
   cs "inventory", cs "stock", cs "produce", cs "production", cs "make", cs "bake",
   cs "material", cs "ingredient", cs "flour", cs "eggs", cs "butter", cs "sugar",
   cs "how many", cs "how much", cs "quantity", cs "amount",
   cs "today", cs "tomorrow", cs "next week", cs "this week", cs "next", cs "week", cs "day"]

/-- `self.llm_keywords`, flattened over its four categories in source order. -/
def llm_keywords : List (List Char) :=
  [cs "supplier", cs "buy", cs "purchase", cs "vendor", cs "where", cs "cheap", cs "price",
   cs "should i", cs "recommend", cs "suggest", cs "advice", cs "tips", cs "help", cs "how to",
   cs "quality", cs "fresh", cs "store", cs "storage", cs "shelf life",
   cs "recipe", cs "substitute", cs "alternative", cs "replace"]

/-- `ml_score`: number of ML keywords contained in the lower-cased query. -/
def ml_score (q : List Char) : Nat := (ml_keywords.filter fun k => substr k q).length

/-- `llm_score`: number of LLM keywords contained in the lower-cased query. -/
def llm_score (q : List Char) : Nat := (llm_keywords.filter fun k => substr k q).length

/-- The `QueryType` enum of the router. -/
inductive QueryType where
  | FORECAST_DEMAND
  | INVENTORY_NEEDS
  | RAW_MATERIALS
  | BUSINESS_ADVICE
  | SUPPLIER_INFO
  | GENERAL_QUESTION
deriving DecidableEq, Repr

/-- `QueryRouter.classify_query`.  Float confidence literals of the source
(0.9, 0.85, 0.8, 0.6, 0.5) are embedded as the rationals they denote. -/
def classify_query (query : String) : QueryType × ℚ :=
  let q := lowerL query.toList
  if pattern1 q then (QueryType.FORECAST_DEMAND, (9/10 : ℚ))
  else if pattern2 q then
    (if ingredient_hit q then (QueryType.RAW_MATERIALS, (17/20 : ℚ))
     else (QueryType.INVENTORY_NEEDS, (17/20 : ℚ)))
  else if pattern3 q then (QueryType.INVENTORY_NEEDS, (4/5 : ℚ))
  else if pattern4 q then (QueryType.SUPPLIER_INFO, (9/10 : ℚ))
  else if pattern5 q then (QueryType.BUSINESS_ADVICE, (17/20 : ℚ))
  else if llm_score q < ml_score q then (QueryType.FORECAST_DEMAND, (3/5 : ℚ))
  else if ml_score q < llm_score q then (QueryType.BUSINESS_ADVICE, (3/5 : ℚ))
  else (QueryType.GENERAL_QUESTION, (1/2 : ℚ))

/-- `self.products`, in source iteration order. -/
def products : List String :=
  ["croissant", "baguette", "sourdough", "sandwich",
   "donut", "muffin", "cinnamon roll", "cinnamon_roll"]

/-- Python `str.title()` on ASCII input: an alphabetic character is upper-cased
when the previous character is not alphabetic, lower-cased otherwise.  The
boolean argument records whether the previous character was alphabetic. -/
def titleL : Bool → List Char → List Char
  | _, [] => []
  | prevAlpha, c :: rest =>
    (if c.isAlpha then (if prevAlpha then lowChar c else upChar c) else c) ::
      titleL c.isAlpha rest

/-- The normalization `product.replace(' ', '_').title().replace('_', '_')`
(the final replace is the identity). -/
def normalizeProduct (p : String) : String :=
  String.mk (titleL false (List.map (fun c => if c = ' ' then '_' else c) p.toList))

/-- `QueryRouter.extract_product`: first product of `self.products` contained
in the lower-cased query, normalized; `none` when no product name occurs. -/
def extract_product (query : String) : Option String :=
  (products.find? fun p => substr p.toList (lowerL query.toList)).map normalizeProduct

/-- The unit captured by group 2 of the regex `(\d+)\s*(day|week|month)`. -/
inductive TimeUnit where
  | day
  | week
  | month
deriving DecidableEq, Repr

/-- ASCII whitespace, modelling `\s` of the regex on ASCII input. -/
def isSpaceC (c : Char) : Bool :=
  c == ' ' || c == '\t' || c == '\n' || c == '\r' || c == Char.ofNat 11 || c == Char.ofNat 12

/-- Value of a decimal digit string, as `int(...)` produces it. -/
def digitsToNat (l : List Char) : Nat :=
  l.foldl (fun acc c => 10 * acc + (c.toNat - 48)) 0

/-- Which of `day`, `week`, `month` is a prefix of the input (the alternation
is ordered as in the regex; `day` also matches the front of `days`, etc.). -/
def unitAt (s : List Char) : Option TimeUnit :=
  if startsWithL (cs "day") s then some TimeUnit.day
  else if startsWithL (cs "week") s then some TimeUnit.week
  else if startsWithL (cs "month") s then some TimeUnit.month
  else none

/-- `re.search(r'(\d+)\s*(day|week|month)', q)`: the leftmost position where a
digit run, followed by optional whitespace, is followed by a unit word; returns
the digit run's value and the unit.  Scanning character by character is exact:
at a given digit run, only the full run can begin a match (a shorter `\d+`
would have to be followed immediately by a digit, which neither `\s` nor a
unit word starts with), and if the run fails then every suffix of the run
fails by the same prefix test. -/
def findNumUnit : List Char → Option (Nat × TimeUnit)
  | [] => none
  | c :: rest =>
    if c.isDigit then
      match unitAt (((c :: rest).dropWhile Char.isDigit).dropWhile isSpaceC) with
      | some u => some (digitsToNat ((c :: rest).takeWhile Char.isDigit), u)
      | none => findNumUnit rest
    else findNumUnit rest

/-- `QueryRouter.extract_time_period`. -/
def extract_time_period (query : String) : Nat :=
  let q := lowerL query.toList
  if substr (cs "today") q then 1
  else if substr (cs "tomorrow") q then 1
  else if substr (cs "next week") q || substr (cs "this week") q then 7
  else if substr (cs "next month") q then 30
  else
    match findNumUnit q with
    | some (n, TimeUnit.day) => n
    | some (n, TimeUnit.week) => n * 7
    | some (n, TimeUnit.month) => n * 30
    | none => 7

/-- `query_type in [FORECAST_DEMAND, INVENTORY_NEEDS, RAW_MATERIALS]`. -/
def use_ml_of (qt : QueryType) : Bool :=
  decide (qt ∈ [QueryType.FORECAST_DEMAND, QueryType.INVENTORY_NEEDS, QueryType.RAW_MATERIALS])

/-- `query_type in [BUSINESS_ADVICE, SUPPLIER_INFO, GENERAL_QUESTION]`. -/
def use_llm_of (qt : QueryType) : Bool :=
  decide (qt ∈ [QueryType.BUSINESS_ADVICE, QueryType.SUPPLIER_INFO, QueryType.GENERAL_QUESTION])

/-- The dictionary returned by `QueryRouter.route`. -/
structure RoutingDecision where
  query_type : QueryType
  confidence : ℚ
  product : Option String
  time_period : Nat
  use_ml : Bool
  use_llm : Bool
  original_query : String
deriving DecidableEq, Repr

/-- `QueryRouter.route`. -/
def route (query : String) : RoutingDecision :=
  { query_type := (classify_query query).1
    confidence := (classify_query query).2
    product := extract_product query
    time_period := extract_time_period query
    use_ml := use_ml_of (classify_query query).1
    use_llm := use_llm_of (classify_query query).1
    original_query := query }

/-!
Embedding of the inventory/material aggregation of
`src/forecasting/model.py` (`FreshCastForecaster`).  The Prophet forecast
itself is out of scope; `calculate_inventory_needs` is embedded as the pure
transformation it applies to the rows returned by `predict` (one row per
day, in order).  Floats are embedded as rationals; pandas `.round()` is
round half to even (`roundHalfEven`); Python `round(x, 2)` is `round2`.
-/

/-- One row of the forecast frame handed to the aggregation:
`ds`, `yhat`, `yhat_lower`, `yhat_upper` (`ds` embedded as a day index). -/
structure ForecastPoint where
  ds : Int
  yhat : ℚ
  yhat_lower : ℚ
  yhat_upper : ℚ
deriving DecidableEq, Repr

/-- One row of the frame returned by `calculate_inventory_needs`. -/
structure InventoryRec where
  ds : Int
  expected_demand : Int
  recommended_production : Int
deriving DecidableEq, Repr

/-- numpy/pandas `.round()`: round half to even, to an integer. -/
def roundHalfEven (x : ℚ) : Int :=
  if x - (⌊x⌋ : ℚ) < 1/2 then ⌊x⌋
  else if 1/2 < x - (⌊x⌋ : ℚ) then ⌊x⌋ + 1
  else if ⌊x⌋ % 2 = 0 then ⌊x⌋ else ⌊x⌋ + 1

/-- The per-row computation of `calculate_inventory_needs`:
`uncertainty = yhat_upper - yhat`;
`recommended_production = round(yhat + uncertainty * service_level)`;
`expected_demand = round(yhat)`. -/
def inventory_point (p : ForecastPoint) (service_level : ℚ) : InventoryRec :=
  { ds := p.ds
    expected_demand := roundHalfEven p.yhat
    recommended_production :=
      roundHalfEven (p.yhat + (p.yhat_upper - p.yhat) * service_level) }

/-- `FreshCastForecaster.calculate_inventory_needs`, as the row-wise map it
performs on the forecast rows (default `service_level` in source: 0.95). -/
def calculate_inventory_needs (fps : List ForecastPoint) (service_level : ℚ) :
    List InventoryRec :=
  fps.map fun p => inventory_point p service_level

/-- The `RECIPES` table of `get_raw_materials` (kg per 100 units). -/
def RECIPES : String → Option (List (String × ℚ))
  | "Croissant" => some [("flour", 12), ("butter", 8), ("eggs", 15)]
  | "Baguette" => some [("flour", 15), ("butter", 0), ("eggs", 0)]
  | "Sourdough" => some [("flour", 18), ("butter", 2), ("eggs", 0)]
  | "Sandwich" => some [("flour", 8), ("butter", 3), ("eggs", 10), ("meat", 5), ("vegetables", 3)]
  | "Donut" => some [("flour", 10), ("butter", 5), ("eggs", 12), ("sugar", 6)]
  | "Muffin" => some [("flour", 11), ("butter", 4), ("eggs", 10), ("sugar", 5)]
  | "Cinnamon_Roll" => some [("flour", 12), ("butter", 6), ("eggs", 8), ("sugar", 7)]
  | _ => none

/-- The inner loop of `get_raw_materials`: for each `(material, qty_per_100)`
of one product's recipe, `materials[material] = materials.get(material, 0) +
(total_production / 100) * qty_per_100`.  The running dictionary is embedded
as a total function that is `0` on absent keys. -/
def addRecipe (t : ℚ) : (String → ℚ) → List (String × ℚ) → (String → ℚ)
  | acc, [] => acc
  | acc, (mat, qty) :: rest =>
    addRecipe t (fun m => if m = mat then acc m + (t / 100) * qty else acc m) rest

/-- One iteration of the outer loop of `get_raw_materials`: a product with a
recipe entry contributes its recipe, a product without one contributes
nothing. -/
def addProduct (recipes : String → Option (List (String × ℚ)))
    (acc : String → ℚ) (p : String) (t : ℚ) : String → ℚ :=
  match recipes p with
  | some r => addRecipe t acc r
  | none => acc

/-- The accumulation of `FreshCastForecaster.get_raw_materials`, over a given
iteration order of the product → total-production mapping (the source
iterates `self.models.keys()`); unrounded running totals. -/
def get_raw_materials (recipes : String → Option (List (String × ℚ)))
    (totals : List (String × ℚ)) : String → ℚ :=
  totals.foldl (fun acc pt => addProduct recipes acc pt.1 pt.2) (fun _ => 0)

/-- Python `round(x, 2)` (half to even at 2 decimal places), applied once per
material when `get_raw_materials` builds its result frame. -/
def round2 (x : ℚ) : ℚ := (roundHalfEven (100 * x) : ℚ) / 100

/-- The `quantity_kg` column of the frame returned by `get_raw_materials`. -/
def quantity_kg (recipes : String → Option (List (String × ℚ)))
    (totals : List (String × ℚ)) (m : String) : ℚ :=
  round2 (get_raw_materials recipes totals m)

/-- No branch of `extract_time_period` other than the default applies:
none of the five fixed phrases occurs and the number-unit regex has no match. -/
def no_time_phrase (q : List Char) : Bool :=
  !(substr (cs "today") q) && !(substr (cs "tomorrow") q) &&
    !(substr (cs "next week") q) && !(substr (cs "this week") q) &&
    !(substr (cs "next month") q) && (findNumUnit q).isNone

/-- The number-unit regex of `extract_time_period` either has no match or
captures an integer that is at least 1. -/
def num_positive (q : List Char) : Bool :=
  match findNumUnit q with
  | some (n, _) => decide (1 ≤ n)
  | none => true

/-- The total contribution of one `(product, total_production)` entry to one
material of the running dictionary of `get_raw_materials`. -/
def material_contrib (recipes : String → Option (List (String × ℚ)))
    (pt : String × ℚ) (m : String) : ℚ :=
  match recipes pt.1 with
  | none => 0
  | some r => (r.map fun e => if m = e.1 then (pt.2 / 100) * e.2 else 0).sum

end FreshCast


namespace FreshCast

/-- `List.find?` returns the first element satisfying the predicate: if the
element at index `i` satisfies it, the result is some element at an index
`j ≤ i`. -/
theorem find?_first {α : Type} (pr : α → Bool) (l : List α) :
    ∀ (i : Nat) (hi : i < l.length), pr (l.get ⟨i, hi⟩) = true →
    ∃ j, ∃ hj : j < l.length, j ≤ i ∧ l.find? pr = some (l.get ⟨j, hj⟩) := by
  induction l with
  | nil => intro i hi _; simp at hi
  | cons a t ih =>
    intro i hi hp
    by_cases ha : pr a = true
    · exact ⟨0, by simp, Nat.zero_le _, by simp [List.find?_cons_of_pos _ ha]⟩
    · have hb : pr a = false := by simpa using ha
      cases i with
      | zero => rw [List.get] at hp; rw [hb] at hp; cases hp
      | succ i =>
        obtain ⟨j, hj, hji, hf⟩ :=
          ih i (by simpa [Nat.succ_lt_succ_iff] using hi) (by simpa using hp)
        refine ⟨j + 1, by simpa [Nat.succ_lt_succ_iff] using hj, Nat.succ_le_succ hji, ?_⟩
        rw [List.find?_cons_of_neg _ ha]
        exact hf

/-- Claim C1, counterexample: on `"What raw materials should I order?"` the
classifier does not return `(RAW_MATERIALS, 0.85)`: the query contains no
substring `"need"`, so the what-do-we-need pattern cannot fire. -/
theorem C1_counterexample :
    classify_query "What raw materials should I order?" ≠
      (QueryType.RAW_MATERIALS, (17/20 : ℚ)) := by
  intro h
  exact absurd (congrArg Prod.fst h) (by decide)

/-- Claim C1, amended: for `"What raw materials should I order?"`,
`classify_query` returns `(GENERAL_QUESTION, 0.50)` (the keyword vocabularies
tie 1-1: `material` against `should i`), and `route` of that string yields
`product = none`, `time_period = 7`, `use_ml = false` and `use_llm = true`. -/
theorem C1_amended_route :
    classify_query "What raw materials should I order?" =
      (QueryType.GENERAL_QUESTION, (1/2 : ℚ)) ∧
    (route "What raw materials should I order?").product = none ∧
    (route "What raw materials should I order?").time_period = 7 ∧
    (route "What raw materials should I order?").use_ml = false ∧
    (route "What raw materials should I order?").use_llm = true :=
  ⟨by rfl, by rfl, by rfl, by rfl, by rfl⟩

/-- Claim C2, counterexample: on `"Should I increase production for the
holidays?"` the classifier does not return `(BUSINESS_ADVICE, 0.85)`: the
production/inventory/stock rule is checked first and fires on
`"production"`. -/
theorem C2_counterexample :
    classify_query "Should I increase production for the holidays?" ≠
      (QueryType.BUSINESS_ADVICE, (17/20 : ℚ)) := by
  intro h
  exact absurd (congrArg Prod.fst h) (by decide)

/-- Claim C2, amended: for `"Should I increase production for the holidays?"`,
`classify_query` returns `(INVENTORY_NEEDS, 0.80)`: both the
production-keyword rule and the "should i" prefix rule match the query, but
the production-keyword rule is checked before the "should i" rule and
therefore determines the result. -/
theorem C2_amended :
    classify_query "Should I increase production for the holidays?" =
      (QueryType.INVENTORY_NEEDS, (4/5 : ℚ)) ∧
    pattern3 (lowerL (cs "Should I increase production for the holidays?")) = true ∧
    pattern5 (lowerL (cs "Should I increase production for the holidays?")) = true :=
  ⟨by rfl, by decide, by decide⟩

/-- Claim C3, counterexample: `"how many cinnamon rolls"` is a question in
which a "how many" phrase co-occurs with the product name "cinnamon roll",
yet `classify_query` returns confidence 0.60 (via fallback scoring), not
0.90: the quantity-pattern regex does not list ``cinnamon roll``. -/
theorem C3_counterexample :
    classify_query "how many cinnamon rolls" = (QueryType.FORECAST_DEMAND, (3/5 : ℚ)) ∧
    classify_query "how many cinnamon rolls" ≠ (QueryType.FORECAST_DEMAND, (9/10 : ℚ)) := by
  refine ⟨by rfl, ?_⟩
  intro h
  have h2 := congrArg Prod.snd h
  rw [show Prod.snd (classify_query "how many cinnamon rolls") = (3/5 : ℚ) from rfl] at h2
  norm_num at h2

/-- Claim C3, amended: whenever one of the six product names croissant,
baguette, sourdough, sandwich, donut, muffin occurs after a "how many" or
"how much" phrase (with no newline in between) in the lower-cased query,
`classify_query` returns `(FORECAST_DEMAND, 0.90)`.  Cinnamon roll is not
covered by the pattern, and the product name must follow the quantity
phrase. -/
theorem C3_amended (s : String) (h : pattern1 (lowerL s.toList) = true) :
    classify_query s = (QueryType.FORECAST_DEMAND, (9/10 : ℚ)) := by
  have h' : pattern1 (lowerL s.data) = true := h
  simp [classify_query, h']

/-- Witness for C3_amended at the concrete query "How many croissants tomorrow?". -/
theorem C3_witness :
    pattern1 (lowerL (String.toList "How many croissants tomorrow?")) = true ∧
    classify_query "How many croissants tomorrow?" =
      (QueryType.FORECAST_DEMAND, (9/10 : ℚ)) :=
  ⟨by decide, C3_amended "How many croissants tomorrow?" (by decide)⟩

end FreshCast

namespace FreshCast

/-- Claim C4, counterexample: `extract_time_period "0 days"` returns 0, not a
positive integer: the number-unit regex matches with the integer 0. -/
theorem C4_counterexample :
    extract_time_period "0 days" = 0 ∧ ¬ (1 ≤ extract_time_period "0 days") :=
  ⟨by decide, by decide⟩

/-- Claim C4, amended: `extract_time_period` always returns a non-negative
integer; it returns exactly 7 when the string contains no qualifying time
phrase; it returns a positive integer whenever the number-unit regex either
has no match or captures an integer that is at least 1 (so the only
non-positive results come from a captured 0); and the phrases are checked in
the stated order, `today` first. -/
theorem C4_amended (s : String) :
    (no_time_phrase (lowerL s.toList) = true → extract_time_period s = 7) ∧
    (num_positive (lowerL s.toList) = true → 1 ≤ extract_time_period s) ∧
    (substr (cs "today") (lowerL s.toList) = true → extract_time_period s = 1) := by
  refine ⟨?_, ?_, ?_⟩
  · intro h
    simp only [no_time_phrase, Bool.and_eq_true, Bool.not_eq_true',
      Option.isNone_iff_eq_none] at h
    obtain ⟨⟨⟨⟨⟨h1, h2⟩, h3⟩, h4⟩, h5⟩, h6⟩ := h
    have h1' : substr (cs "today") (lowerL s.data) = false := h1
    have h2' : substr (cs "tomorrow") (lowerL s.data) = false := h2
    have h3' : substr (cs "next week") (lowerL s.data) = false := h3
    have h4' : substr (cs "this week") (lowerL s.data) = false := h4
    have h5' : substr (cs "next month") (lowerL s.data) = false := h5
    have h6' : findNumUnit (lowerL s.data) = none := h6
    simp [extract_time_period, h1', h2', h3', h4', h5', h6']
  · intro h
    have h' : (match findNumUnit (lowerL s.data) with
      | some (n, _) => decide (1 ≤ n)
      | none => true) = true := h
    simp only [extract_time_period, String.toList]
    split_ifs <;> try omega
    cases hn : findNumUnit (lowerL s.data) with
    | none => simp [hn]
    | some p =>
      obtain ⟨n, u⟩ := p
      rw [hn] at h'
      simp only [decide_eq_true_eq] at h'
      cases u <;> simp [hn] <;> omega
  · intro h
    have h' : substr (cs "today") (lowerL s.data) = true := h
    simp [extract_time_period, h']

/-- Witness for C4_amended: a string with no time phrase defaults to 7 and is
positive; `"today"` is mapped to 1 by the first-checked phrase. -/
theorem C4_witness :
    extract_time_period "order flour" = 7 ∧
    1 ≤ extract_time_period "in 3 days" ∧
    extract_time_period "today" = 1 :=
  ⟨(C4_amended "order flour").1 (by decide),
   (C4_amended "in 3 days").2.1 (by decide),
   (C4_amended "today").2.2 (by decide)⟩

/-- Claim C8: the routing decision's capability flags are derived from the
query type exactly as specified: `use_ml` is true and `use_llm` false exactly
on the three forecasting query types, `use_llm` is true and `use_ml` false
exactly on the three assistant query types, and for every possible query type
exactly one of the two flags is true (they are never both false). -/
theorem C8_flags :
    (∀ s : String,
      (((route s).use_ml = true ∧ (route s).use_llm = false) ↔
        (route s).query_type ∈ [QueryType.FORECAST_DEMAND, QueryType.INVENTORY_NEEDS,
          QueryType.RAW_MATERIALS]) ∧
      (((route s).use_ml = false ∧ (route s).use_llm = true) ↔
        (route s).query_type ∈ [QueryType.BUSINESS_ADVICE, QueryType.SUPPLIER_INFO,
          QueryType.GENERAL_QUESTION]) ∧
      (route s).use_ml = !(route s).use_llm) ∧
    (∀ qt : QueryType, use_ml_of qt = !(use_llm_of qt)) := by
  constructor
  · intro s
    have h1 : (route s).use_ml = use_ml_of (route s).query_type := rfl
    have h2 : (route s).use_llm = use_llm_of (route s).query_type := rfl
    rw [h1, h2]
    cases (route s).query_type <;> decide
  · intro qt
    cases qt <;> decide

/-- Claim C9: routing the empty string raises nothing and yields
`(GENERAL_QUESTION, 0.50)` with no product, horizon 7, `use_ml = false`,
`use_llm = true`; and in general any query on which no pattern rule fires and
both keyword scores are 0 classifies as `(GENERAL_QUESTION, 0.50)`. -/
theorem C9_empty_default :
    route "" = ⟨QueryType.GENERAL_QUESTION, (1/2 : ℚ), none, 7, false, true, ""⟩ ∧
    ∀ s : String,
      pattern1 (lowerL s.toList) = false →
      pattern2 (lowerL s.toList) = false →
      pattern3 (lowerL s.toList) = false →
      pattern4 (lowerL s.toList) = false →
      pattern5 (lowerL s.toList) = false →
      ml_score (lowerL s.toList) = 0 →
      llm_score (lowerL s.toList) = 0 →
      classify_query s = (QueryType.GENERAL_QUESTION, (1/2 : ℚ)) := by
  constructor
  · rfl
  · intro s h1 h2 h3 h4 h5 hm hl
    have h1' : pattern1 (lowerL s.data) = false := h1
    have h2' : pattern2 (lowerL s.data) = false := h2
    have h3' : pattern3 (lowerL s.data) = false := h3
    have h4' : pattern4 (lowerL s.data) = false := h4
    have h5' : pattern5 (lowerL s.data) = false := h5
    have hm' : ml_score (lowerL s.data) = 0 := hm
    have hl' : llm_score (lowerL s.data) = 0 := hl
    simp [classify_query, h1', h2', h3', h4', h5', hm', hl']

/-- Witness for the general fallback clause of C9_empty_default at the
concrete no-keyword query "zzz". -/
theorem C9_witness :
    classify_query "zzz" = (QueryType.GENERAL_QUESTION, (1/2 : ℚ)) :=
  C9_empty_default.2 "zzz" (by decide) (by decide) (by decide) (by decide) (by decide)
    (by decide) (by decide)

end FreshCast

namespace FreshCast

/-- Claim C10: `extract_product` returns either no product or one of exactly
the seven canonical identifiers; the surface spellings "cinnamon roll" and
"cinnamon_roll" both normalize to `Cinnamon_Roll`; and when a product name at
index `i` of the fixed product list occurs in the query, the returned product
is the normalization of a product at some index `j ≤ i` (the earliest match
in the fixed list order wins). -/
theorem C10_extract_product :
    (∀ s : String, extract_product s = none ∨
      extract_product s ∈ [some "Croissant", some "Baguette", some "Sourdough",
        some "Sandwich", some "Donut", some "Muffin", some "Cinnamon_Roll"]) ∧
    extract_product "cinnamon roll" = some "Cinnamon_Roll" ∧
    extract_product "cinnamon_roll" = some "Cinnamon_Roll" ∧
    (∀ s : String, ∀ i, (hi : i < products.length) →
      substr (products.get ⟨i, hi⟩).toList (lowerL s.toList) = true →
      ∃ j, ∃ hj : j < products.length, j ≤ i ∧
        extract_product s = some (normalizeProduct (products.get ⟨j, hj⟩))) := by
  refine ⟨?_, by decide, by decide, ?_⟩
  · intro s
    cases hf : products.find? (fun p => substr p.toList (lowerL s.toList)) with
    | none =>
      left
      unfold extract_product
      rw [hf]
      rfl
    | some p =>
      right
      have hm := List.mem_of_find?_eq_some hf
      have he : extract_product s = some (normalizeProduct p) := by
        unfold extract_product
        rw [hf]
        rfl
      rw [he]
      fin_cases hm <;> decide
  · intro s i hi hp
    obtain ⟨j, hj, hji, hf⟩ :=
      find?_first (fun p => substr p.toList (lowerL s.toList)) products i hi hp
    refine ⟨j, hj, hji, ?_⟩
    unfold extract_product
    rw [hf]
    rfl

/-- Witness for the earliest-match clause of C10_extract_product: in
"muffin and donut", both "donut" (index 4) and "muffin" (index 5) occur, and
the extracted product is the normalization of an entry at index at most 5. -/
theorem C10_witness :
    ∃ j, ∃ hj : j < products.length, j ≤ 5 ∧
      extract_product "muffin and donut" =
        some (normalizeProduct (products.get ⟨j, hj⟩)) :=
  C10_extract_product.2.2.2 "muffin and donut" 5 (by decide) (by decide)

end FreshCast

namespace FreshCast

/-- `roundHalfEven` never rounds below the floor. -/
theorem floor_le_roundHalfEven (x : ℚ) : ⌊x⌋ ≤ roundHalfEven x := by
  unfold roundHalfEven
  split_ifs <;> omega

/-- `roundHalfEven` never rounds above the ceiling bound `⌊x⌋ + 1`. -/
theorem roundHalfEven_le_floor_add_one (x : ℚ) : roundHalfEven x ≤ ⌊x⌋ + 1 := by
  unfold roundHalfEven
  split_ifs <;> omega

/-- Round half to even is monotone. -/
theorem roundHalfEven_mono {x y : ℚ} (h : x ≤ y) :
    roundHalfEven x ≤ roundHalfEven y := by
  rcases lt_or_eq_of_le (Int.floor_le_floor h) with hlt | heq
  · have hx := roundHalfEven_le_floor_add_one x
    have hy := floor_le_roundHalfEven y
    omega
  · have hxy : x - (⌊x⌋ : ℚ) ≤ y - (⌊x⌋ : ℚ) := by linarith
    unfold roundHalfEven
    rw [← heq]
    split_ifs <;> first | omega | (exfalso; linarith)

/-- Claim C5: for forecast points with `yhat_lower ≤ yhat ≤ yhat_upper` and a
service level in `(0, 1]`, the inventory computation yields one
recommendation per input point in the same order (same length, the `i`-th
output row is the per-row computation of the `i`-th input row), and
`recommended_production ≥ expected_demand` holds at every point. -/
theorem C5_inventory (fps : List ForecastPoint) (sl : ℚ)
    (hb : ∀ p ∈ fps, p.yhat_lower ≤ p.yhat ∧ p.yhat ≤ p.yhat_upper)
    (h0 : 0 < sl) (h1 : sl ≤ 1) :
    (calculate_inventory_needs fps sl).length = fps.length ∧
    ∀ i (hi : i < fps.length) (hi' : i < (calculate_inventory_needs fps sl).length),
      (calculate_inventory_needs fps sl).get ⟨i, hi'⟩ =
        inventory_point (fps.get ⟨i, hi⟩) sl ∧
      ((calculate_inventory_needs fps sl).get ⟨i, hi'⟩).expected_demand ≤
        ((calculate_inventory_needs fps sl).get ⟨i, hi'⟩).recommended_production := by
  constructor
  · simp [calculate_inventory_needs]
  · intro i hi hi'
    have hget : (calculate_inventory_needs fps sl).get ⟨i, hi'⟩ =
        inventory_point (fps.get ⟨i, hi⟩) sl := by
      simp [calculate_inventory_needs]
    refine ⟨hget, ?_⟩
    rw [hget]
    have hp := hb (fps.get ⟨i, hi⟩) (List.get_mem fps i hi)
    have hup : (fps.get ⟨i, hi⟩).yhat ≤
        (fps.get ⟨i, hi⟩).yhat +
          ((fps.get ⟨i, hi⟩).yhat_upper - (fps.get ⟨i, hi⟩).yhat) * sl := by
      have hnn : 0 ≤ ((fps.get ⟨i, hi⟩).yhat_upper - (fps.get ⟨i, hi⟩).yhat) * sl :=
        mul_nonneg (by linarith [hp.2]) (le_of_lt h0)
      linarith
    exact roundHalfEven_mono hup

/-- Witness for C5_inventory at a single concrete forecast point
`(ds 0, yhat 10, lower 8, upper 14)` and the default service level 0.95:
expected demand 10, recommended production `round(10 + 4 * 0.95) = 14`. -/
theorem C5_witness :
    (calculate_inventory_needs [⟨0, 10, 8, 14⟩] (19/20)).length = 1 ∧
    ((calculate_inventory_needs [⟨0, 10, 8, 14⟩] (19/20)).get
        ⟨0, by decide⟩).expected_demand ≤
      ((calculate_inventory_needs [⟨0, 10, 8, 14⟩] (19/20)).get
        ⟨0, by decide⟩).recommended_production := by
  have h := C5_inventory [⟨0, 10, 8, 14⟩] (19/20)
    (by rintro p hp; simp at hp; subst hp; exact ⟨by norm_num, by norm_num⟩)
    (by norm_num) (by norm_num)
  exact ⟨h.1, (h.2 0 (by decide) (by decide)).2⟩

end FreshCast

namespace FreshCast

/-- Applying one recipe adds, at each material, exactly the sum over the
recipe's entries of `(t / 100) * qty` for matching materials. -/
theorem addRecipe_apply (t : ℚ) :
    ∀ (r : List (String × ℚ)) (acc : String → ℚ) (m : String),
      addRecipe t acc r m =
        acc m + (r.map fun e => if m = e.1 then (t / 100) * e.2 else 0).sum := by
  intro r
  induction r with
  | nil => intro acc m; simp [addRecipe]
  | cons e rest ih =>
    intro acc m
    obtain ⟨mat, qty⟩ := e
    rw [addRecipe, ih]
    by_cases h : m = mat <;> simp [h] <;> ring

/-- The running dictionary of `get_raw_materials` at a material equals the
initial value plus the sum of the per-product contributions, in input order. -/
theorem get_raw_materials_sum (recipes : String → Option (List (String × ℚ))) :
    ∀ (totals : List (String × ℚ)) (acc : String → ℚ) (m : String),
      (totals.foldl (fun acc pt => addProduct recipes acc pt.1 pt.2) acc) m =
        acc m + (totals.map fun pt => material_contrib recipes pt m).sum := by
  intro totals
  induction totals with
  | nil => intro acc m; simp
  | cons pt rest ih =>
    intro acc m
    rw [List.foldl_cons, ih, List.map_cons, List.sum_cons]
    have hstep : addProduct recipes acc pt.1 pt.2 m =
        acc m + material_contrib recipes pt m := by
      unfold addProduct material_contrib
      cases recipes pt.1 with
      | none => simp
      | some r => exact addRecipe_apply pt.2 r acc m
    rw [hstep]
    ring

/-- Claim C6: for every recipe table and every material, the materials
aggregation gives the same unrounded total under every permutation of the
product-totals input, and hence also the same presented `quantity_kg`
(rounding to 2 decimal places is applied once per material at the end, to
the unrounded accumulated total). -/
theorem C6_perm_invariant (recipes : String → Option (List (String × ℚ)))
    (totals totals' : List (String × ℚ)) (hperm : totals.Perm totals') (m : String) :
    get_raw_materials recipes totals m = get_raw_materials recipes totals' m ∧
    quantity_kg recipes totals m = quantity_kg recipes totals' m := by
  have key : get_raw_materials recipes totals m = get_raw_materials recipes totals' m := by
    unfold get_raw_materials
    rw [get_raw_materials_sum, get_raw_materials_sum]
    have := List.Perm.sum_eq (hperm.map fun pt => material_contrib recipes pt m)
    rw [this]
  refine ⟨key, ?_⟩
  unfold quantity_kg
  rw [key]

/-- Witness for C6_perm_invariant on the swapped two-product input of the
materials scenario. -/
theorem C6_witness :
    get_raw_materials RECIPES [("Croissant", 100), ("Donut", 100)] "flour" =
      get_raw_materials RECIPES [("Donut", 100), ("Croissant", 100)] "flour" :=
  (C6_perm_invariant RECIPES [("Croissant", 100), ("Donut", 100)]
    [("Donut", 100), ("Croissant", 100)]
    (List.Perm.swap ("Donut", 100) ("Croissant", 100) []) "flour").1

/-- Claim C7: on production totals Croissant 100 and Donut 100, with the
source recipe table, the aggregation yields exactly flour 22.0, butter 13.0,
eggs 27.0, sugar 6.0 kilograms (both as unrounded totals and as the
2-decimal presented quantities), and a product without a recipe entry
("Bagel", any total) contributes nothing to any material. -/
theorem C7_materials_scenario :
    get_raw_materials RECIPES [("Croissant", 100), ("Donut", 100)] "flour" = 22 ∧
    get_raw_materials RECIPES [("Croissant", 100), ("Donut", 100)] "butter" = 13 ∧
    get_raw_materials RECIPES [("Croissant", 100), ("Donut", 100)] "eggs" = 27 ∧
    get_raw_materials RECIPES [("Croissant", 100), ("Donut", 100)] "sugar" = 6 ∧
    quantity_kg RECIPES [("Croissant", 100), ("Donut", 100)] "flour" = 22 ∧
    quantity_kg RECIPES [("Croissant", 100), ("Donut", 100)] "butter" = 13 ∧
    quantity_kg RECIPES [("Croissant", 100), ("Donut", 100)] "eggs" = 27 ∧
    quantity_kg RECIPES [("Croissant", 100), ("Donut", 100)] "sugar" = 6 ∧
    ∀ (t : ℚ) (m : String),
      get_raw_materials RECIPES [("Croissant", 100), ("Donut", 100), ("Bagel", t)] m =
        get_raw_materials RECIPES [("Croissant", 100), ("Donut", 100)] m := by
  refine ⟨?_, ?_, ?_, ?_, ?_, ?_, ?_, ?_, ?_⟩
  · simp [get_raw_materials, addProduct, addRecipe, RECIPES] <;> norm_num
  · simp [get_raw_materials, addProduct, addRecipe, RECIPES] <;> norm_num
  · simp [get_raw_materials, addProduct, addRecipe, RECIPES] <;> norm_num
  · simp [get_raw_materials, addProduct, addRecipe, RECIPES] <;> norm_num
  · simp [quantity_kg, round2, roundHalfEven, get_raw_materials, addProduct,
      addRecipe, RECIPES] <;> norm_num
  · simp [quantity_kg, round2, roundHalfEven, get_raw_materials, addProduct,
      addRecipe, RECIPES] <;> norm_num
  · simp [quantity_kg, round2, roundHalfEven, get_raw_materials, addProduct,
      addRecipe, RECIPES] <;> norm_num
  · simp [quantity_kg, round2, roundHalfEven, get_raw_materials, addProduct,
      addRecipe, RECIPES] <;> norm_num
  · intro t m
    have hB : ∀ acc : String → ℚ, addProduct RECIPES acc "Bagel" t = acc := fun _ => rfl
    simp only [get_raw_materials, List.foldl_cons, List.foldl_nil, hB]

end FreshCast
